import Mathlib

/-!
# Verification of the Numbot verification-session orchestrator

Shallow embedding of `src/main.py` (a Discord bot driving the TextVerified
HTTP API).  The network is modelled by oracles: each endpoint is a function
from the index of the HTTP attempt to its outcome.  An outcome is either a
raised `requests.exceptions.RequestException` (transport failure, timeout,
or the `HTTPError` raised by `raise_for_status` on a 4xx/5xx status) or a
2xx response with its parsed JSON body restricted to the fields the code
reads.  Time is modelled in the seconds of the source's `asyncio.sleep`
calls; the un-awaited `asyncio.sleep(3)` calls inside the two retry loops
(src lines 42 and 60) are no-ops in Python (the coroutine is never awaited)
and advance no time here either.
-/

namespace Numbot

/-- Outcome of one HTTP attempt: a raised `RequestException` (carrying the
exception's rendering) or a 2xx response with parsed body `v`. -/
inductive AttemptOut (α : Type) where
  | fail (e : String)
  | succ (v : α)
deriving DecidableEq

/-- `True` exactly on the exception outcome. -/
def AttemptOut.isFail {α : Type} : AttemptOut α → Bool
  | .fail _ => true
  | .succ _ => false

/-- Python truthiness of an optional string: `None` and `""` are falsy
(`if not bearer_token`, `while not number`, `if number and ends_at`). -/
def truthy : Option String → Bool
  | none => false
  | some s => !(s == "")

/-- The module-level `CACHE` dict, restricted to its single key `"token"`:
`none` means the key is absent, `some v` means `CACHE["token"] = v` where
`v : Option String` is the stored Python value (possibly `None`). -/
abbrev Cache := Option (Option String)

/-- Result of `generate_bearer_token`: the returned Python value
(`none` = Python `None`), the cache afterwards, and how many HTTP requests
were made to the auth endpoint. -/
structure GenResult where
  tok : Option String
  cache : Cache
  calls : Nat
deriving DecidableEq

/-- The `for attempt in range(3)` loop of `generate_bearer_token`
(src lines 33-42): try attempts `start, start+1, ...` while fuel lasts.
On a 2xx the code stores `data.get("token")` (an `Option String`) and
returns it; returns `(some v, n)` when some attempt got a 2xx storing `v`
after `n` requests, `(none, n)` when every attempt raised. -/
def authAttempts (oracle : Nat → AttemptOut (Option String)) :
    Nat → Nat → Option (Option String) × Nat
  | _, 0 => (none, 0)
  | i, f + 1 =>
    match oracle i with
    | .succ v => (some v, 1)
    | .fail _ =>
      let r := authAttempts oracle (i + 1) f
      (r.1, r.2 + 1)

/-- `generate_bearer_token` (src lines 26-44).  `if "token" in CACHE:
return CACHE["token"]` is a key-presence test, so a stored `None` is
returned as-is with no network traffic; otherwise up to 3 attempts are made
and on the first 2xx `CACHE["token"] = data.get("token")` is stored and
returned; after 3 raised attempts the function returns `None` leaving the
cache unset. -/
def generate_bearer_token (oracle : Nat → AttemptOut (Option String))
    (start : Nat) (cache : Cache) : GenResult :=
  match cache with
  | some v => ⟨v, some v, 0⟩
  | none =>
    match authAttempts oracle start 3 with
    | (some v, n) => ⟨v, some v, n⟩
    | (none, n) => ⟨none, none, n⟩

/-- Value returned by `get_balance`: the numeric `currentBalance` field or
the `"Error"` sentinel string. -/
inductive Balance where
  | num (x : Int)
  | err
deriving DecidableEq

/-- The `for attempt in range(3)` loop of `get_balance` (src lines 53-60).
A 2xx returns `response.json().get("currentBalance", "Error")` at once —
also when the field is absent; a raised attempt is retried. -/
def balAttempts (oracle : Nat → AttemptOut (Option Int)) :
    Nat → Nat → Balance × Nat
  | _, 0 => (.err, 0)
  | i, f + 1 =>
    match oracle i with
    | .succ (some x) => (.num x, 1)
    | .succ none => (.err, 1)
    | .fail _ =>
      let r := balAttempts oracle (i + 1) f
      (r.1, r.2 + 1)

/-- Result of `get_balance`: the value, the cache afterwards, and the
number of HTTP requests made to the auth and the balance endpoints. -/
structure BalResult where
  value : Balance
  cache : Cache
  authCalls : Nat
  balCalls : Nat
deriving DecidableEq

/-- `get_balance` (src lines 46-62): obtain a token (through the cache),
return `"Error"` at once if it is falsy, else retry the balance endpoint
up to 3 times. -/
def get_balance (authO : Nat → AttemptOut (Option String)) (authStart : Nat)
    (balO : Nat → AttemptOut (Option Int)) (balStart : Nat)
    (cache : Cache) : BalResult :=
  let g := generate_bearer_token authO authStart cache
  if truthy g.tok then
    let r := balAttempts balO balStart 3
    ⟨r.1, g.cache, g.calls, r.2⟩
  else
    ⟨.err, g.cache, g.calls, 0⟩

/-- Parsed JSON body of the `POST /verifications` response, restricted to
the keys the code reads; a field is `none` when the key is absent. -/
structure CreateData where
  href : Option String
  id : Option String
deriving DecidableEq

/-- Outcome of the single verification-creation request (src lines 78-80):
a transport-level `RequestException`, or a response with status code, raw
text and (when the text is non-empty) its parsed JSON. -/
inductive CreateOutcome where
  | exn (e : String)
  | resp (status : Nat) (text : String) (data : Option CreateData)
deriving DecidableEq

/-- Rendering of the `HTTPError` raised by `response.raise_for_status()`:
`requests` builds it from status, reason and URL only — the response body
is never part of the exception text. -/
def renderHTTPError (status : Nat) : String :=
  toString status ++ " Error"

/-- Line 80 of the source: `data = response.json() if response.text else
None`. -/
def createDataOf (text : String) (data : Option CreateData) :
    Option CreateData :=
  if text == "" then none else data

/-- Parsed JSON body of one status poll (`GET <verification_href>`),
restricted to the two keys read at src lines 103-104. -/
structure StatusBody where
  number : Option String
  endsAt : Option String
deriving DecidableEq

/-- Result of the number-wait loop: the final values of the Python locals
`number` and `ends_at`, and the count of HTTP polls performed. -/
structure NumResult where
  number : Option String
  endsAt : Option String
  polls : Nat
deriving DecidableEq

/-- The number-wait loop of `verify` (src lines 94-110):
`while not number and (now - start).total_seconds() < 30`.  Every
iteration ends in `await asyncio.sleep(1)` and HTTP time is not modelled,
so the elapsed seconds at the k-th condition check equal k; `fuel` is the
remaining whole seconds of the 30-second window (initially 30).  A 2xx
overwrites both locals with the body's fields and breaks when both are
truthy; a raised attempt is only logged. -/
def numberLoop (oracle : Nat → AttemptOut StatusBody)
    (number endsAt : Option String) : Nat → Nat → NumResult
  | _, 0 => ⟨number, endsAt, 0⟩
  | i, f + 1 =>
    if truthy number then ⟨number, endsAt, 0⟩
    else
      match oracle i with
      | .succ body =>
        if truthy body.number && truthy body.endsAt then
          ⟨body.number, body.endsAt, 1⟩
        else
          let r := numberLoop oracle body.number body.endsAt (i + 1) f
          ⟨r.number, r.endsAt, r.polls + 1⟩
      | .fail _ =>
        let r := numberLoop oracle number endsAt (i + 1) f
        ⟨r.number, r.endsAt, r.polls + 1⟩

/-- A word character of the regex `\b\d{4,8}\b` (ASCII range of `\w`,
which is what the claims' inputs exercise). -/
def isWordChar (c : Char) : Bool :=
  c.isAlphanum || c == '_'

/-- Splits a character list into its maximal runs of word characters
(`acc` holds the current run, reversed). -/
def wordTokensAux : List Char → List Char → List (List Char)
  | [], acc => if acc.isEmpty then [] else [acc.reverse]
  | c :: cs, acc =>
    if isWordChar c then wordTokensAux cs (c :: acc)
    else if acc.isEmpty then wordTokensAux cs acc
    else acc.reverse :: wordTokensAux cs []

/-- `re.findall(r"\b\d{4,8}\b", s)` (src line 146).  With the `\b` anchors
a match is exactly a maximal word-character run that consists solely of
digits and has length 4..8 (a longer digit run or a run touching a letter
or underscore never matches, by backtracking on the trailing `\b`);
`findall` returns them left to right. -/
def findallOtp (s : String) : List String :=
  ((wordTokensAux s.data []).filter fun t =>
    t.all Char.isDigit && decide (4 ≤ t.length) && decide (t.length ≤ 8)).map
    fun t => String.mk t

/-- Line 147 of the source: `otp_match[-1] if otp_match else
"No OTP found"`. -/
def extractOtp (latest : String) : String :=
  match (findallOtp latest).getLast? with
  | some v => v
  | none => "No OTP found"

/-- Result of the OTP-wait loop: the `messages` list of the poll that
returned a non-empty one (if any), the count of HTTP polls, the sequence
of cooldowns (in seconds) that followed each non-returning iteration, and
the elapsed seconds when the loop ended. -/
structure OtpRun where
  found : Option (List String)
  polls : Nat
  sleeps : List Nat
  endTime : Nat
deriving DecidableEq

/-- The OTP-wait loop of `check_otp` (src lines 138-161):
`while now < timeout` with `timeout = start + 5 minutes`; `t` is the
elapsed seconds.  A 2xx with a non-empty `messages` list returns at once;
a 2xx with an empty or absent list falls through to the unconditional
`await asyncio.sleep(5)` (line 161); a raised attempt additionally runs
the `await asyncio.sleep(5)` inside the `except` block (line 159), so a
failed iteration is followed by 10 seconds of cooldown.  `fuel` bounds the
iteration count; since each iteration advances `t` by at least 5 and the
window is 300 seconds, fuel 60 is never exhausted before the window is
(`otpLoop_fuel_stable` below). -/
def otpLoop (oracle : Nat → AttemptOut (List String)) :
    Nat → Nat → Nat → OtpRun
  | _, t, 0 => ⟨none, 0, [], t⟩
  | i, t, f + 1 =>
    if t < 300 then
      match oracle i with
      | .succ msgs =>
        if msgs.isEmpty then
          let r := otpLoop oracle (i + 1) (t + 5) f
          ⟨r.found, r.polls + 1, 5 :: r.sleeps, r.endTime⟩
        else ⟨some msgs, 1, [], t⟩
      | .fail _ =>
        let r := otpLoop oracle (i + 1) (t + 10) f
        ⟨r.found, r.polls + 1, 10 :: r.sleeps, r.endTime⟩
    else ⟨none, 0, [], t⟩

/-- The network environment of one `verify` invocation: per-endpoint
oracles, indexed by how many requests were already made to that endpoint. -/
structure World where
  auth : Nat → AttemptOut (Option String)
  bal : Nat → AttemptOut (Option Int)
  create : CreateOutcome
  status : Nat → AttemptOut StatusBody
  sms : Nat → AttemptOut (List String)

/-- A user-visible output of the session (`ctx.send` / `message.edit`),
with the data the respective message or embed carries.  The constant
decoration (titles, colours, the literal error texts) is not repeated
here; what matters is which report it is and which session values it
surfaces: the `numberTimeoutMsg` (src line 113) carries no number, the
`createExnMsg` carries only the exception rendering, the
`createBadRespMsg` (src line 86) interpolates the parsed body `data`, the
pending embed (src lines 118-125) shows the number and both balance
snapshots with status `Pending...`, and the completed embed (src lines
149-154) shows the number, the remaining balance and the OTP with status
`Completed`. -/
inductive Event where
  | authFailMsg
  | createExnMsg (e : String)
  | createBadRespMsg (data : Option CreateData)
  | numberTimeoutMsg
  | pendingEmbed (number : String) (balanceBefore balanceAfter : Balance)
  | completedEmbed (number : String) (balance : Balance) (otp : String)
deriving DecidableEq

/-- Result of `check_otp`: emitted events (the edit of the embed, if any)
plus cache and request counters. -/
structure OtpResult where
  events : List Event
  cache : Cache
  authCalls : Nat
  smsPolls : Nat
deriving DecidableEq

/-- `check_otp` (src lines 130-161): re-obtain the bearer token through
the cache (its falsiness is not checked here), run the 5-minute SMS poll
loop; when a poll returned messages, extract the OTP from the most recent
one (`data["messages"][-1]["message"]`) and edit the embed to
`Completed`; when the window expires with no messages, return with no
edit at all. -/
def check_otp (w : World) (authStart : Nat) (number : String)
    (balance : Balance) (cache : Cache) : OtpResult :=
  let g := generate_bearer_token w.auth authStart cache
  let r := otpLoop w.sms 0 0 60
  match r.found with
  | some msgs =>
    let latest := msgs.getLast?.getD ""
    let otp := extractOtp latest
    ⟨[.completedEmbed number balance otp], g.cache, g.calls, r.polls⟩
  | none => ⟨[], g.cache, g.calls, r.polls⟩

/-- Result of one `-verify` command: the events sent to the channel in
order, the cache afterwards, and per-endpoint request counts. -/
structure VerifyResult where
  events : List Event
  cache : Cache
  authCalls : Nat
  balCalls : Nat
  createCalls : Nat
  statusPolls : Nat
  smsPolls : Nat
deriving DecidableEq

/-- `verify` (src lines 64-128).  In order: authenticate (falsy token →
error message, stop); snapshot `balance_before`; one creation request —
a raised attempt (transport failure, or `raise_for_status` on status ≥
400) sends the exception message and stops, a 2xx whose
`data = response.json() if response.text else None` is `None` or lacks
the `"href"` key sends the message interpolating `data` and stops;
snapshot `balance_after`; run the 30-second number-wait loop — if
afterwards `not number or not ends_at`, send the `Number not received`
message and stop; otherwise parse `ends_at` (the result `expires_at` is
never used afterwards), send the `Pending` embed and hand over to
`check_otp` with `balance_after`.  `serviceName` only feeds the request
body and the embed titles. -/
def verify (w : World) (serviceName : String) (cache0 : Cache) :
    VerifyResult :=
  let g1 := generate_bearer_token w.auth 0 cache0
  if truthy g1.tok then
    let b1 := get_balance w.auth g1.calls w.bal 0 g1.cache
    match w.create with
    | .exn e =>
      ⟨[.createExnMsg e], b1.cache, g1.calls + b1.authCalls, b1.balCalls,
        1, 0, 0⟩
    | .resp status text data0 =>
      if 400 ≤ status then
        ⟨[.createExnMsg (renderHTTPError status)], b1.cache,
          g1.calls + b1.authCalls, b1.balCalls, 1, 0, 0⟩
      else
        let data := createDataOf text data0
        match data.bind CreateData.href with
        | none =>
          ⟨[.createBadRespMsg data], b1.cache, g1.calls + b1.authCalls,
            b1.balCalls, 1, 0, 0⟩
        | some _ =>
          let b2 := get_balance w.auth (g1.calls + b1.authCalls) w.bal
            b1.balCalls b1.cache
          let nr := numberLoop w.status none none 0 30
          if truthy nr.number && truthy nr.endsAt then
            let num := nr.number.getD ""
            let co := check_otp w
              (g1.calls + b1.authCalls + b2.authCalls) num b2.value
              b2.cache
            ⟨.pendingEmbed num b1.value b2.value :: co.events, co.cache,
              g1.calls + b1.authCalls + b2.authCalls + co.authCalls,
              b1.balCalls + b2.balCalls, 1, nr.polls, co.smsPolls⟩
          else
            ⟨[.numberTimeoutMsg], b2.cache,
              g1.calls + b1.authCalls + b2.authCalls,
              b1.balCalls + b2.balCalls, 1, nr.polls, 0⟩
  else
    ⟨[.authFailMsg], g1.cache, g1.calls, 0, 0, 0, 0⟩

/-! ## Concrete environments used for counterexamples and witnesses -/

/-- Auth endpoint that always answers 2xx with a token. -/
def okAuth : Nat → AttemptOut (Option String) := fun _ => .succ (some "tok")

/-- Auth endpoint on which every attempt raises. -/
def allFailAuth : Nat → AttemptOut (Option String) := fun _ => .fail "ConnectionError"

/-- Auth endpoint whose first two attempts raise, then a 2xx with a token. -/
def failTwiceAuth : Nat → AttemptOut (Option String) :=
  fun i => if i < 2 then .fail "ConnectTimeout" else .succ (some "tok")

/-- Auth endpoint answering 2xx with a JSON body that lacks `token`. -/
def poisonAuth : Nat → AttemptOut (Option String) := fun _ => .succ none

/-- Balance endpoint that always answers 2xx with a balance. -/
def okBal : Nat → AttemptOut (Option Int) := fun _ => .succ (some 100)

/-- Balance endpoint on which every attempt raises. -/
def allFailBal : Nat → AttemptOut (Option Int) := fun _ => .fail "ReadTimeout"

/-- Balance endpoint whose first two attempts raise, then a 2xx. -/
def failTwiceBal : Nat → AttemptOut (Option Int) :=
  fun i => if i < 2 then .fail "ReadTimeout" else .succ (some 42)

/-- Balance endpoint answering 2xx with a body lacking `currentBalance`. -/
def missingBal : Nat → AttemptOut (Option Int) := fun _ => .succ none

/-- A well-formed creation response. -/
def okCreate : CreateOutcome :=
  .resp 200 "body" (some ⟨some "https://www.textverified.com/v/1", some "R1"⟩)

/-- Status endpoint answering with number and expiry present. -/
def okStatus : Nat → AttemptOut StatusBody :=
  fun _ => .succ ⟨some "+15551234567", some "2024-01-01T00:00:10Z"⟩

/-- Status endpoint answering with a number but no `endsAt`. -/
def numberOnlyStatus : Nat → AttemptOut StatusBody :=
  fun _ => .succ ⟨some "+15551234567", none⟩

/-- Status endpoint answering with `endsAt` but never a number. -/
def noNumberStatus : Nat → AttemptOut StatusBody :=
  fun _ => .succ ⟨none, some "2024-01-01T00:00:10Z"⟩

/-- SMS endpoint answering 2xx with an empty `messages` list forever. -/
def emptySms : Nat → AttemptOut (List String) := fun _ => .succ []

/-- SMS endpoint whose first poll raises, then empty lists forever. -/
def failFirstSms : Nat → AttemptOut (List String) :=
  fun i => if i = 0 then .fail "ReadTimeout" else .succ []

/-- A fully sunny environment: auth, balance, creation and the first
status poll all succeed; no SMS ever arrives. -/
def baseWorld : World := ⟨okAuth, okBal, okCreate, okStatus, emptySms⟩

/-- `baseWorld` but the status endpoint returns a number with no expiry. -/
def numberOnlyWorld : World := { baseWorld with status := numberOnlyStatus }

/-- `baseWorld` but the status endpoint never returns a number. -/
def noNumberWorld : World := { baseWorld with status := noNumberStatus }

/-- `baseWorld` but creation answers 500 with body `"payload A"`. -/
def err500WorldA : World := { baseWorld with create := .resp 500 "payload A" none }

/-- `baseWorld` but creation answers 500 with a different body. -/
def err500WorldB : World :=
  { baseWorld with create := .resp 500 "payload B" (some ⟨some "h", none⟩) }

/-- `baseWorld` but the creation request raises. -/
def exnWorld : World := { baseWorld with create := .exn "ConnectTimeout" }

/-- `baseWorld` but the creation body lacks the `href` key. -/
def badBodyWorld : World :=
  { baseWorld with create := .resp 200 "ok" (some ⟨none, some "R1"⟩) }

/-- `baseWorld` but an SMS with an OTP arrives on the first poll. -/
def otpWorld : World :=
  { baseWorld with sms := fun _ => .succ ["Your code is 482913, expires soon"] }

/-- `baseWorld` but the arriving SMS holds no digit run. -/
def noDigitsWorld : World :=
  { baseWorld with sms := fun _ => .succ ["no digits here"] }

/-! ## Helper lemmas -/

/-- A failed attempt is a `fail`. -/
theorem AttemptOut.isFail_exists {α : Type} {x : AttemptOut α}
    (h : x.isFail = true) : ∃ e, x = .fail e := by
  cases x with
  | fail e => exact ⟨e, rfl⟩
  | succ v => simp [AttemptOut.isFail] at h

/-- The fuel of `otpLoop` is an artifact: once it covers the remaining
window (each iteration advances time by at least 5 toward the 300-second
ceiling) adding more fuel changes nothing, so fuel 60 from time 0 computes
the source's unbounded-fuel loop. -/
theorem otpLoop_fuel_stable (oracle : Nat → AttemptOut (List String)) :
    ∀ fuel i t, 300 ≤ t + 5 * fuel →
      otpLoop oracle i t (fuel + 1) = otpLoop oracle i t fuel := by
  intro fuel
  induction fuel with
  | zero =>
    intro i t h
    have ht : ¬ t < 300 := by omega
    simp [otpLoop, ht]
  | succ f ih =>
    intro i t h
    conv_lhs => rw [otpLoop]
    conv_rhs => rw [otpLoop]
    by_cases ht : t < 300
    · rcases ho : oracle i with e | msgs
      · simp only [ht, if_pos, ho]
        rw [ih (i + 1) (t + 10) (by omega)]
      · by_cases hm : msgs.isEmpty
        · simp only [ht, if_pos, ho, hm]
          rw [ih (i + 1) (t + 5) (by omega)]
        · simp [ht, ho, hm]
    · simp [ht]

/-- The number-wait loop performs at most `fuel` polls. -/
theorem numberLoop_polls_le (oracle : Nat → AttemptOut StatusBody) :
    ∀ fuel number endsAt i,
      (numberLoop oracle number endsAt i fuel).polls ≤ fuel := by
  intro fuel
  induction fuel with
  | zero => intro n e i; simp [numberLoop]
  | succ f ih =>
    intro n e i
    simp only [numberLoop]
    split
    · simp
    · split
      · split
        · simp
        · simpa using Nat.succ_le_succ (ih _ _ (i + 1))
      · simpa using Nat.succ_le_succ (ih _ _ (i + 1))

/-- The OTP-wait loop performs at most `fuel` polls. -/
theorem otpLoop_polls_le (oracle : Nat → AttemptOut (List String)) :
    ∀ fuel i t, (otpLoop oracle i t fuel).polls ≤ fuel := by
  intro fuel
  induction fuel with
  | zero => intro i t; simp [otpLoop]
  | succ f ih =>
    intro i t
    simp only [otpLoop]
    split
    · split
      · split
        · simpa using Nat.succ_le_succ (ih (i + 1) (t + 5))
        · simp
      · simpa using Nat.succ_le_succ (ih (i + 1) (t + 10))
    · simp

/-- If every SMS poll answers 2xx with an empty `messages` list, the
OTP-wait loop never finds a message. -/
theorem otpLoop_found_none (oracle : Nat → AttemptOut (List String))
    (h : ∀ j, oracle j = .succ []) :
    ∀ fuel i t, (otpLoop oracle i t fuel).found = none := by
  intro fuel
  induction fuel with
  | zero => intro i t; simp [otpLoop]
  | succ f ih =>
    intro i t
    by_cases ht : t < 300
    · simp [otpLoop, ht, h i]
      exact ih (i + 1) (t + 5)
    · simp [otpLoop, ht]

/-- If every status poll answers 2xx with no `number`, the number-wait
loop keeps the local `number` at `None` and uses its full fuel. -/
theorem numberLoop_no_number (oracle : Nat → AttemptOut StatusBody)
    (h : ∀ j, ∃ e, oracle j = .succ ⟨none, e⟩) :
    ∀ fuel i ea, (numberLoop oracle none ea i fuel).number = none ∧
      (numberLoop oracle none ea i fuel).polls = fuel := by
  intro fuel
  induction fuel with
  | zero => intro i ea; simp [numberLoop]
  | succ f ih =>
    intro i ea
    obtain ⟨e, he⟩ := h i
    simp [numberLoop, he, truthy]
    exact ⟨(ih (i + 1) e).1, (ih (i + 1) e).2⟩

/-- Cooldown that the source applies after a non-returning iteration of
the OTP-wait loop: the unconditional `sleep(5)` at src line 161, preceded
on a raised attempt by the `sleep(5)` inside the `except` block at src
line 159. -/
def cooldownOf : AttemptOut (List String) → Nat
  | .fail _ => 10
  | .succ _ => 5

/-! ## Claim theorems -/

/-- C2: OTP extraction takes the most recently received message
(`messages[-1]`) and returns the last run of 4-8 consecutive digits of
its text: "Your code is 482913, expires soon" yields "482913", while a
text with no such run, "no digits here", yields the "No OTP found" marker
and the session still transitions to the Completed embed rather than
failing. -/
theorem C2_otp_extraction :
    extractOtp "Your code is 482913, expires soon" = "482913" ∧
    extractOtp "no digits here" = "No OTP found" ∧
    ∀ (w : World) (authStart : Nat) (number : String) (balance : Balance)
      (cache : Cache) (m : String) (ms : List String),
      w.sms 0 = .succ (m :: ms) →
      (check_otp w authStart number balance cache).events =
        [.completedEmbed number balance
          (extractOtp ((m :: ms).getLast?.getD ""))] := by
  refine ⟨by decide, by decide, ?_⟩
  intro w a n b c m ms h
  simp [check_otp, otpLoop, h]

/-- C2 witness: concrete runs of `check_otp` for the two example
messages, ending Completed with OTP "482913" and "No OTP found". -/
theorem C2_witness :
    (check_otp otpWorld 0 "+15551234567" (.num 100) (some (some "tok"))).events =
      [.completedEmbed "+15551234567" (.num 100) "482913"] ∧
    (check_otp noDigitsWorld 0 "+15551234567" (.num 100) (some (some "tok"))).events =
      [.completedEmbed "+15551234567" (.num 100) "No OTP found"] := by
  constructor
  · rw [C2_otp_extraction.2.2 otpWorld 0 "+15551234567" (.num 100)
      (some (some "tok")) "Your code is 482913, expires soon" [] rfl]
    rfl
  · rw [C2_otp_extraction.2.2 noDigitsWorld 0 "+15551234567" (.num 100)
      (some (some "tok")) "no digits here" [] rfl]
    rfl

/-- C3 counterexample: the claim says every pair of `getToken()` calls
with no `invalidate()` between them makes at most one network call.  With
no cached credential and an auth endpoint on which every attempt raises,
each of two consecutive `generate_bearer_token` calls makes 3 network
calls — 6 for the pair (and the code contains no `invalidate()` at all,
so the proviso is vacuous). -/
theorem C3_counterexample :
    (generate_bearer_token allFailAuth 0 none).calls +
      (generate_bearer_token allFailAuth
        (generate_bearer_token allFailAuth 0 none).calls
        (generate_bearer_token allFailAuth 0 none).cache).calls = 6 := by
  decide

/-- C3 (amended): once the first `getToken()` call has cached a
credential (which happens exactly when some attempt received a 2xx), the
second call returns the cached value immediately with zero network
requests; in particular when the first attempt succeeds the pair makes
exactly one network call in total.  Only when no credential got cached
may the pair exceed one network call (up to 3 per call). -/
theorem C3_amended :
    (∀ (oracle : Nat → AttemptOut (Option String)) (v : Option String)
      (s2 : Nat),
      (generate_bearer_token oracle 0 none).cache = some v →
      generate_bearer_token oracle s2
        (generate_bearer_token oracle 0 none).cache = ⟨v, some v, 0⟩) ∧
    (∀ (oracle : Nat → AttemptOut (Option String)) (t : Option String),
      oracle 0 = .succ t →
      (generate_bearer_token oracle 0 none).calls = 1 ∧
      (generate_bearer_token oracle 1
        (generate_bearer_token oracle 0 none).cache).calls = 0) := by
  constructor
  · intro o v s2 h
    rw [h]
    rfl
  · intro o t h
    simp [generate_bearer_token, authAttempts, h]

/-- C3 witness: with an always-succeeding auth endpoint, the second call
returns the cached token with no network call and the pair makes one
network call in total. -/
theorem C3_witness :
    generate_bearer_token okAuth 7 (generate_bearer_token okAuth 0 none).cache =
      ⟨some "tok", some (some "tok"), 0⟩ ∧
    (generate_bearer_token okAuth 0 none).calls = 1 ∧
    (generate_bearer_token okAuth 1
      (generate_bearer_token okAuth 0 none).cache).calls = 0 :=
  ⟨C3_amended.1 okAuth (some "tok") 7 (by decide),
   C3_amended.2 okAuth (some "tok") rfl⟩

/-- C4: for the auth and balance operations, a dependency that fails
exactly twice and then succeeds yields success on the 3rd attempt (3 HTTP
calls); one that fails on all 3 attempts yields the auth failure value
(`None`, the code's `AuthError` value) and the `"Error"` sentinel for
balance. -/
theorem C4_retry_budget :
    (∀ (aO : Nat → AttemptOut (Option String)) (t : String),
      (aO 0).isFail = true → (aO 1).isFail = true → aO 2 = .succ (some t) →
      generate_bearer_token aO 0 none = ⟨some t, some (some t), 3⟩) ∧
    (∀ aO : Nat → AttemptOut (Option String), (∀ i, (aO i).isFail = true) →
      generate_bearer_token aO 0 none = ⟨none, none, 3⟩) ∧
    (∀ (aO : Nat → AttemptOut (Option String))
      (bO : Nat → AttemptOut (Option Int)) (tk : String) (x : Int),
      aO 0 = .succ (some tk) → tk ≠ "" →
      (bO 0).isFail = true → (bO 1).isFail = true → bO 2 = .succ (some x) →
      (get_balance aO 0 bO 0 none).value = .num x ∧
      (get_balance aO 0 bO 0 none).balCalls = 3) ∧
    (∀ (aO : Nat → AttemptOut (Option String))
      (bO : Nat → AttemptOut (Option Int)) (tk : String),
      aO 0 = .succ (some tk) → tk ≠ "" → (∀ i, (bO i).isFail = true) →
      (get_balance aO 0 bO 0 none).value = .err ∧
      (get_balance aO 0 bO 0 none).balCalls = 3) := by
  refine ⟨?_, ?_, ?_, ?_⟩
  · intro aO t hf0 hf1 h2
    obtain ⟨e0, h0⟩ := AttemptOut.isFail_exists hf0
    obtain ⟨e1, h1⟩ := AttemptOut.isFail_exists hf1
    simp [generate_bearer_token, authAttempts, h0, h1, h2]
  · intro aO hf
    obtain ⟨e0, h0⟩ := AttemptOut.isFail_exists (hf 0)
    obtain ⟨e1, h1⟩ := AttemptOut.isFail_exists (hf 1)
    obtain ⟨e2, h2⟩ := AttemptOut.isFail_exists (hf 2)
    simp [generate_bearer_token, authAttempts, h0, h1, h2]
  · intro aO bO tk x hA htk hf0 hf1 h2
    obtain ⟨e0, h0⟩ := AttemptOut.isFail_exists hf0
    obtain ⟨e1, h1⟩ := AttemptOut.isFail_exists hf1
    constructor <;>
      simp [get_balance, generate_bearer_token, authAttempts, balAttempts,
        hA, truthy, htk, h0, h1, h2]
  · intro aO bO tk hA htk hf
    obtain ⟨e0, h0⟩ := AttemptOut.isFail_exists (hf 0)
    obtain ⟨e1, h1⟩ := AttemptOut.isFail_exists (hf 1)
    obtain ⟨e2, h2⟩ := AttemptOut.isFail_exists (hf 2)
    constructor <;>
      simp [get_balance, generate_bearer_token, authAttempts, balAttempts,
        hA, truthy, htk, h0, h1, h2]

/-- C4 witness: concrete fail-fail-succeed and fail-fail-fail oracles for
both the auth and the balance endpoint. -/
theorem C4_witness :
    generate_bearer_token failTwiceAuth 0 none =
      ⟨some "tok", some (some "tok"), 3⟩ ∧
    generate_bearer_token allFailAuth 0 none = ⟨none, none, 3⟩ ∧
    ((get_balance okAuth 0 failTwiceBal 0 none).value = .num 42 ∧
      (get_balance okAuth 0 failTwiceBal 0 none).balCalls = 3) ∧
    ((get_balance okAuth 0 allFailBal 0 none).value = .err ∧
      (get_balance okAuth 0 allFailBal 0 none).balCalls = 3) :=
  ⟨C4_retry_budget.1 failTwiceAuth "tok" rfl rfl rfl,
   C4_retry_budget.2.1 allFailAuth (fun _ => rfl),
   C4_retry_budget.2.2.1 okAuth failTwiceBal "tok" 42 rfl (by decide) rfl rfl rfl,
   C4_retry_budget.2.2.2 okAuth allFailBal "tok" rfl (by decide) (fun _ => rfl)⟩

/-- C5 counterexample: the claim says every iteration of the OTP loop is
followed by exactly one fixed 5-time-unit cooldown whether or not it
transport-failed.  When the first poll raises, the code runs the sleep in
the `except` block (src line 159) and then the unconditional sleep (src
line 161): that iteration is followed by 10 time-units of cooldown. -/
theorem C5_counterexample :
    (otpLoop failFirstSms 0 0 60).sleeps.head? = some 10 := by decide

/-- C5 (amended): every non-returning iteration of the OTP-wait loop is
followed by a cooldown before the next poll: 5 time-units when the poll
got a response, but 10 time-units when it transport-failed (the
except-block sleep plus the unconditional one), not a single fixed 5. -/
theorem C5_amended (oracle : Nat → AttemptOut (List String)) :
    ∀ fuel i t j, j < (otpLoop oracle i t fuel).sleeps.length →
      (otpLoop oracle i t fuel).sleeps[j]? =
        some (cooldownOf (oracle (i + j))) := by
  intro fuel
  induction fuel with
  | zero => intro i t j hj; simp [otpLoop] at hj
  | succ f ih =>
    intro i t j hj
    by_cases ht : t < 300
    · rcases ho : oracle i with e | msgs
      · cases j with
        | zero => simp [otpLoop, ht, ho, cooldownOf]
        | succ j' =>
          have hj' : j' < (otpLoop oracle (i + 1) (t + 10) f).sleeps.length := by
            simpa [otpLoop, ht, ho] using hj
          have h2 := ih (i + 1) (t + 10) j' hj'
          rw [show i + 1 + j' = i + (j' + 1) from by omega] at h2
          simpa [otpLoop, ht, ho] using h2
      · by_cases hm : msgs.isEmpty
        · cases j with
          | zero => simp [otpLoop, ht, ho, hm, cooldownOf]
          | succ j' =>
            have hj' : j' < (otpLoop oracle (i + 1) (t + 5) f).sleeps.length := by
              simpa [otpLoop, ht, ho, hm] using hj
            have h2 := ih (i + 1) (t + 5) j' hj'
            rw [show i + 1 + j' = i + (j' + 1) from by omega] at h2
            simpa [otpLoop, ht, ho, hm] using h2
        · simp [otpLoop, ht, ho, hm] at hj
    · simp [otpLoop, ht] at hj

/-- C5 witness: the very first cooldown of a run whose polls always
answer with empty message lists is 5 time-units. -/
theorem C5_witness :
    (otpLoop emptySms 0 0 60).sleeps[0]? = some (cooldownOf (emptySms 0)) :=
  C5_amended emptySms 60 0 0 0 (by decide)

/-- C9: a 2xx auth response whose JSON body lacks the `token` field makes
the code cache Python `None` under the `"token"` key; every subsequent
`generate_bearer_token` returns that `None` immediately with no network
call, and a `verify` command started in that state fails authentication
with zero HTTP traffic — permanently for the process lifetime, since no
invalidation path exists in the code. -/
theorem C9_poisoned_cache :
    (∀ oracle : Nat → AttemptOut (Option String), oracle 0 = .succ none →
      generate_bearer_token oracle 0 none = ⟨none, some none, 1⟩) ∧
    (∀ (oracle : Nat → AttemptOut (Option String)) (start : Nat),
      generate_bearer_token oracle start (some none) = ⟨none, some none, 0⟩) ∧
    (∀ (w : World) (sn : String),
      verify w sn (some none) = ⟨[.authFailMsg], some none, 0, 0, 0, 0, 0⟩) := by
  refine ⟨?_, ?_, ?_⟩
  · intro o h
    simp [generate_bearer_token, authAttempts, h]
  · intro o s
    rfl
  · intro w sn
    rfl

/-- C9 witness: a token-less 2xx poisons the cache after one call; later
calls and a whole `verify` command then do no network work at all. -/
theorem C9_witness :
    generate_bearer_token poisonAuth 0 none = ⟨none, some none, 1⟩ ∧
    generate_bearer_token allFailAuth 3 (some none) = ⟨none, some none, 0⟩ ∧
    verify baseWorld "svc" (some none) = ⟨[.authFailMsg], some none, 0, 0, 0, 0, 0⟩ :=
  ⟨C9_poisoned_cache.1 poisonAuth rfl,
   C9_poisoned_cache.2.1 allFailAuth 3,
   C9_poisoned_cache.2.2 baseWorld "svc"⟩

/-- C10: a 2xx balance response whose body lacks `currentBalance` makes
`get_balance` return the `"Error"` sentinel from that very attempt — one
HTTP call, no remaining retries consumed — which is the same `.err` value
produced by exhausting all three retried attempts, so the caller cannot
tell the two apart. -/
theorem C10_missing_balance_field :
    (∀ bO : Nat → AttemptOut (Option Int), bO 0 = .succ none →
      balAttempts bO 0 3 = (.err, 1)) ∧
    (∀ bO : Nat → AttemptOut (Option Int), (∀ i, (bO i).isFail = true) →
      balAttempts bO 0 3 = (.err, 3)) ∧
    (∀ (aO : Nat → AttemptOut (Option String))
      (bO : Nat → AttemptOut (Option Int)) (tk : String),
      aO 0 = .succ (some tk) → tk ≠ "" → bO 0 = .succ none →
      (get_balance aO 0 bO 0 none).value = .err ∧
      (get_balance aO 0 bO 0 none).balCalls = 1) := by
  refine ⟨?_, ?_, ?_⟩
  · intro bO h
    simp [balAttempts, h]
  · intro bO hf
    obtain ⟨e0, h0⟩ := AttemptOut.isFail_exists (hf 0)
    obtain ⟨e1, h1⟩ := AttemptOut.isFail_exists (hf 1)
    obtain ⟨e2, h2⟩ := AttemptOut.isFail_exists (hf 2)
    simp [balAttempts, h0, h1, h2]
  · intro aO bO tk hA htk h0
    constructor <;>
      simp [get_balance, generate_bearer_token, authAttempts, balAttempts,
        hA, truthy, htk, h0]

/-- C10 witness: a missing `currentBalance` yields the sentinel after one
call; three raised attempts yield the same sentinel after three. -/
theorem C10_witness :
    balAttempts missingBal 0 3 = (.err, 1) ∧
    balAttempts allFailBal 0 3 = (.err, 3) ∧
    ((get_balance okAuth 0 missingBal 0 none).value = .err ∧
      (get_balance okAuth 0 missingBal 0 none).balCalls = 1) :=
  ⟨C10_missing_balance_field.1 missingBal rfl,
   C10_missing_balance_field.2.1 allFailBal (fun _ => rfl),
   C10_missing_balance_field.2.2 okAuth missingBal "tok" rfl (by decide) rfl⟩

/-- C1 counterexample: the claim says partial data (number without
expiry) keeps the number-acquisition phase polling until the 30-unit
window ends.  In fact a first poll returning a number with no `endsAt`
makes the loop condition `not number` false: the phase stops after a
single poll, long before the window ends, and reports the timeout
error. -/
theorem C1_counterexample :
    (verify numberOnlyWorld "svc" none).statusPolls = 1 ∧
    (verify numberOnlyWorld "svc" none).events = [.numberTimeoutMsg] := by
  decide

/-- C1 (amended): a poll counts as a logical success only when both the
number and the expiry timestamp are truthy simultaneously.  Expiry
without number keeps the phase polling until the 30-unit window ends and
then fails with the `Number not received` error; number without expiry
ends the phase with the same error immediately after that poll, without
waiting out the window.  In both cases the error report surfaces no
partial-number value (the emitted event carries no data). -/
theorem C1_amended :
    (∀ (w : World) (sn tk tx hr : String) (idv : Option String),
      w.auth 0 = .succ (some tk) → tk ≠ "" →
      w.create = .resp 200 tx (some ⟨some hr, idv⟩) → tx ≠ "" →
      (∀ i, ∃ e, w.status i = .succ ⟨none, e⟩) →
      (verify w sn none).statusPolls = 30 ∧
      (verify w sn none).events = [.numberTimeoutMsg]) ∧
    (∀ (w : World) (sn tk tx hr num : String) (idv : Option String),
      w.auth 0 = .succ (some tk) → tk ≠ "" →
      w.create = .resp 200 tx (some ⟨some hr, idv⟩) → tx ≠ "" →
      w.status 0 = .succ ⟨some num, none⟩ → num ≠ "" →
      (verify w sn none).statusPolls = 1 ∧
      (verify w sn none).events = [.numberTimeoutMsg]) := by
  constructor
  · intro w sn tk tx hr idv hA htk hC htx hS
    have hn := numberLoop_no_number w.status hS 30 0 none
    constructor <;>
      simp [verify, generate_bearer_token, authAttempts, hA, truthy, htk,
        hC, createDataOf, htx, hn.1, hn.2]
  · intro w sn tk tx hr num idv hA htk hC htx hS0 hnum
    constructor <;>
      simp [verify, generate_bearer_token, authAttempts, hA, truthy, htk,
        hC, createDataOf, htx, numberLoop, hS0, hnum]

/-- C1 witness: with expiry-but-no-number responses the phase uses all 30
polls before the timeout error; with a number-but-no-expiry response it
fails the same way after exactly one poll. -/
theorem C1_witness :
    ((verify noNumberWorld "svc" none).statusPolls = 30 ∧
      (verify noNumberWorld "svc" none).events = [.numberTimeoutMsg]) ∧
    ((verify numberOnlyWorld "svc" none).statusPolls = 1 ∧
      (verify numberOnlyWorld "svc" none).events = [.numberTimeoutMsg]) :=
  ⟨C1_amended.1 noNumberWorld "svc" "tok" "body"
      "https://www.textverified.com/v/1" (some "R1") rfl (by decide) rfl
      (by decide) (fun _ => ⟨some "2024-01-01T00:00:10Z", rfl⟩),
   C1_amended.2 numberOnlyWorld "svc" "tok" "body"
      "https://www.textverified.com/v/1" "+15551234567" (some "R1") rfl
      (by decide) rfl (by decide) rfl (by decide)⟩

/-- C6: if every messages poll during the entire OTP window answers with
an empty list, the session never emits a Completed event — the OTP phase
ends with no terminal report at all and the whole `verify` run leaves the
Pending embed (with the assigned number and the two balance snapshots) as
the last user-visible status. -/
theorem C6_no_fabricated_completion :
    ∀ (w : World) (sn tk tx hr num ea : String) (idv : Option String),
      w.auth 0 = .succ (some tk) → tk ≠ "" →
      w.create = .resp 200 tx (some ⟨some hr, idv⟩) → tx ≠ "" →
      w.status 0 = .succ ⟨some num, some ea⟩ → num ≠ "" → ea ≠ "" →
      (∀ i, w.sms i = .succ []) →
      ∃ b1 b2, (verify w sn none).events = [.pendingEmbed num b1 b2] := by
  intro w sn tk tx hr num ea idv hA htk hC htx hS hnum hea hSms
  refine ⟨(get_balance w.auth 1 w.bal 0 (some (some tk))).value,
    (get_balance w.auth 1 w.bal
      (get_balance w.auth 1 w.bal 0 (some (some tk))).balCalls
      (some (some tk))).value, ?_⟩
  simp [verify, generate_bearer_token, authAttempts, hA, truthy, htk, hC,
    createDataOf, htx, numberLoop, hS, hnum, hea, check_otp,
    otpLoop_found_none w.sms hSms, get_balance]

/-- C6 witness: the sunny environment in which no SMS ever arrives ends
with the Pending embed as the only event. -/
theorem C6_witness :
    ∃ b1 b2, (verify baseWorld "svc" none).events =
      [.pendingEmbed "+15551234567" b1 b2] :=
  C6_no_fabricated_completion baseWorld "svc" "tok" "body"
    "https://www.textverified.com/v/1" "+15551234567" "2024-01-01T00:00:10Z"
    (some "R1") rfl (by decide) rfl (by decide) rfl (by decide) (by decide)
    (fun _ => rfl)

/-- C7 counterexample: the claim says a non-success HTTP response to the
creation call yields a ProviderError report that includes the raw
response payload.  Two environments whose creation responses share
status 500 but have different bodies produce identical `verify` results:
the report carries only the `HTTPError` rendering built from the status,
so the raw payload cannot be part of it.  (Polling is indeed never
entered.) -/
theorem C7_counterexample :
    verify err500WorldA "svc" none = verify err500WorldB "svc" none ∧
    (∃ tA dA tB dB, err500WorldA.create = .resp 500 tA dA ∧
      err500WorldB.create = .resp 500 tB dB ∧ tA ≠ tB) ∧
    (verify err500WorldA "svc" none).events = [.createExnMsg "500 Error"] ∧
    (verify err500WorldA "svc" none).statusPolls = 0 ∧
    (verify err500WorldA "svc" none).smsPolls = 0 := by
  exact ⟨by decide,
    ⟨"payload A", none, "payload B", some ⟨some "h", none⟩, rfl, rfl,
      by decide⟩, by decide, by decide, by decide⟩

/-- C7 (amended): if the verification-creation call raises (transport
failure, or `raise_for_status` on a status ≥ 400) the session ends with
the failure message carrying the exception rendering — for an HTTP error
that is built from the status code, not from the response payload; if the
call yields a 2xx whose body is `None` or lacks the `href` key, the
session ends with the failure message that interpolates the raw parsed
payload.  In every one of these cases neither polling phase is
entered. -/
theorem C7_amended :
    (∀ (w : World) (sn tk e : String),
      w.auth 0 = .succ (some tk) → tk ≠ "" →
      w.create = .exn e →
      (verify w sn none).events = [.createExnMsg e] ∧
      (verify w sn none).statusPolls = 0 ∧
      (verify w sn none).smsPolls = 0) ∧
    (∀ (w : World) (sn tk tx : String) (st : Nat) (d0 : Option CreateData),
      w.auth 0 = .succ (some tk) → tk ≠ "" →
      w.create = .resp st tx d0 → 400 ≤ st →
      (verify w sn none).events = [.createExnMsg (renderHTTPError st)] ∧
      (verify w sn none).statusPolls = 0 ∧
      (verify w sn none).smsPolls = 0) ∧
    (∀ (w : World) (sn tk tx : String) (st : Nat) (d0 : Option CreateData),
      w.auth 0 = .succ (some tk) → tk ≠ "" →
      w.create = .resp st tx d0 → st < 400 →
      (createDataOf tx d0).bind CreateData.href = none →
      (verify w sn none).events = [.createBadRespMsg (createDataOf tx d0)] ∧
      (verify w sn none).statusPolls = 0 ∧
      (verify w sn none).smsPolls = 0) := by
  refine ⟨?_, ?_, ?_⟩
  · intro w sn tk e hA htk hC
    simp [verify, generate_bearer_token, authAttempts, hA, truthy, htk, hC]
  · intro w sn tk tx st d0 hA htk hC h400
    simp [verify, generate_bearer_token, authAttempts, hA, truthy, htk, hC,
      h400]
  · intro w sn tk tx st d0 hA htk hC hlt hh
    have h400 : ¬ 400 ≤ st := by omega
    simp [verify, generate_bearer_token, authAttempts, hA, truthy, htk, hC,
      h400, hh]

/-- C7 witness: a raised creation request, a 500 response, and a 2xx body
with no `href` each end the session before any polling, with the
respective failure report. -/
theorem C7_witness :
    ((verify exnWorld "svc" none).events = [.createExnMsg "ConnectTimeout"] ∧
      (verify exnWorld "svc" none).statusPolls = 0 ∧
      (verify exnWorld "svc" none).smsPolls = 0) ∧
    ((verify err500WorldA "svc" none).events =
        [.createExnMsg (renderHTTPError 500)] ∧
      (verify err500WorldA "svc" none).statusPolls = 0 ∧
      (verify err500WorldA "svc" none).smsPolls = 0) ∧
    ((verify badBodyWorld "svc" none).events =
        [.createBadRespMsg (createDataOf "ok" (some ⟨none, some "R1"⟩))] ∧
      (verify badBodyWorld "svc" none).statusPolls = 0 ∧
      (verify badBodyWorld "svc" none).smsPolls = 0) :=
  ⟨C7_amended.1 exnWorld "svc" "tok" "ConnectTimeout" rfl (by decide) rfl,
   C7_amended.2.1 err500WorldA "svc" "tok" "payload A" 500 none rfl
     (by decide) rfl (by decide),
   C7_amended.2.2 badBodyWorld "svc" "tok" "ok" 200 (some ⟨none, some "R1"⟩)
     rfl (by decide) rfl (by decide) rfl⟩

/-- C8: every polling loop terminates within its wall-clock ceiling: the
number-acquisition loop performs at most 30 polls (one per second of its
30-second window) and the OTP-acquisition loop at most 60 polls (each
iteration advances at least 5 seconds of its 300-second window), in any
environment; consequently a whole `verify` run makes at most 30 status
polls and at most 60 SMS polls — no core operation blocks
indefinitely. -/
theorem C8_polling_bounded :
    (∀ (oracle : Nat → AttemptOut StatusBody) (n e : Option String)
      (i : Nat), (numberLoop oracle n e i 30).polls ≤ 30) ∧
    (∀ (oracle : Nat → AttemptOut (List String)) (i t : Nat),
      (otpLoop oracle i t 60).polls ≤ 60) ∧
    (∀ (w : World) (sn : String) (c : Cache),
      (verify w sn c).statusPolls ≤ 30 ∧ (verify w sn c).smsPolls ≤ 60) := by
  refine ⟨fun o n e i => numberLoop_polls_le o 30 n e i,
    fun o i t => otpLoop_polls_le o 60 i t, ?_⟩
  intro w sn c
  by_cases h1 : truthy (generate_bearer_token w.auth 0 c).tok = true
  · rcases hc : w.create with e | ⟨st, tx, d0⟩
    · simp [verify, h1, hc]
    · by_cases h4 : 400 ≤ st
      · simp [verify, h1, hc, h4]
      · rcases hh : (createDataOf tx d0).bind CreateData.href with _ | hrefv
        · simp [verify, h1, hc, h4, hh]
        · by_cases h5 : (truthy (numberLoop w.status none none 0 30).number &&
              truthy (numberLoop w.status none none 0 30).endsAt) = true
          · rcases hf : (otpLoop w.sms 0 0 60).found with _ | msgs
            · simp [verify, check_otp, h1, hc, h4, hh, h5, hf]
              constructor
              · exact numberLoop_polls_le w.status 30 none none 0
              · simpa [hf] using otpLoop_polls_le w.sms 60 0 0
            · simp [verify, check_otp, h1, hc, h4, hh, h5, hf]
              constructor
              · exact numberLoop_polls_le w.status 30 none none 0
              · simpa [hf] using otpLoop_polls_le w.sms 60 0 0
          · simp [verify, h1, hc, h4, hh, h5]
            exact numberLoop_polls_le w.status 30 none none 0
  · simp [verify, h1]

end Numbot
